import Mathlib

/-!
Shallow embedding of the whatsapp_webhook repository:
a customer-messaging dashboard (conversation list, message thread,
composer POSTing to `/send`) plus a server glue handler that pipes an
HTTP request into an external process.

Sources embedded:
- `src/frontend/frontend/src/App.jsx` : the App component (conversation
  list sync, message thread sync, composer) — the authoritative variant.
- `src/unnamed/part_000` : the supabase client module (env validation).
- `src/api/index.js` : the request-forwarding glue handler.
-/

namespace WhatsappWebhook

/-! ## Data model -/

/-- A row of the `customers` table as consumed by App.jsx
(`phone` key, optional `display_name`, `last_seen` timestamp). -/
structure Customer where
  phone : String
  display_name : Option String
  last_seen : Nat
  deriving Repr, DecidableEq

/-- A row of the `messages` table as consumed by App.jsx
(`id`, owning `phone`, `body`, `direction`, `created_at`).
Timestamps are modeled as naturals ordered as the backend orders them. -/
structure Message where
  id : Nat
  phone : String
  body : String
  direction : String
  created_at : Nat
  deriving Repr, DecidableEq

/-- JavaScript falsiness of an optional string value (`undefined`/absent
and the empty string are falsy), as used by the guards
`if (!supabaseUrl)`, `if (!selectedPhone || !text.trim())`. -/
def jsFalsy : Option String → Bool
  | none => true
  | some s => s == ""

/-- JavaScript `String.prototype.trim`: drop leading and trailing
whitespace characters. -/
def jsTrim (s : String) : String :=
  String.mk
    (((s.data.dropWhile Char.isWhitespace).reverse.dropWhile
      Char.isWhitespace).reverse)

/-! ## Supabase client module (src/unnamed/part_000)

The module reads `VITE_SUPABASE_URL` and `VITE_SUPABASE_KEY` once at
module initialization, throws if either is falsy, and otherwise creates
the client from exactly those two values. -/

/-- The client produced by `createClient(supabaseUrl, supabaseKey)`. -/
structure SupabaseClient where
  url : String
  key : String
  deriving Repr, DecidableEq

/-- Module initialization of `supabaseClient`: the two env vars are read
once; a thrown `Error` is modeled as `Except.error` with the message the
source throws. -/
def supabaseClientModule (urlVar keyVar : Option String) :
    Except String SupabaseClient :=
  if jsFalsy urlVar then
    Except.error "VITE_SUPABASE_URL is missing in your .env file"
  else if jsFalsy keyVar then
    Except.error "VITE_SUPABASE_KEY is missing in your .env file"
  else
    Except.ok { url := urlVar.getD "", key := keyVar.getD "" }

/-! ## Conversation list sync (App.jsx, customers_channel UPDATE callback)

```js
setConversations((prev) =>
  prev.map((c) => c.phone === payload.new.phone ? payload.new : c))
```
-/

/-- The `customers_channel` UPDATE callback applied to the previous
conversation list. -/
def handleCustomerUpdate (payloadNew : Customer) (prev : List Customer) :
    List Customer :=
  prev.map fun c => if c.phone = payloadNew.phone then payloadNew else c

/-! ## Message thread sync (App.jsx, messages effect)

The effect early-returns when `selectedPhone` is falsy (no fetch, no
subscription). Otherwise it fetches
`messages .eq("phone", selectedPhone) .order("created_at", descending) .limit(100)`
and subscribes to INSERT events with server-side filter
`phone=eq.${selectedPhone}`; the callback prepends `payload.new`. -/

/-- The bulk-fetch query result: rows of the store with matching phone,
ordered by `created_at` descending, capped at 100 rows. -/
def loadMessages (store : List Message) (phone : String) : List Message :=
  (List.insertionSort (fun a b => b.created_at ≤ a.created_at)
    (store.filter fun m => m.phone == phone)).take 100

/-- Observable outcome of running the messages effect once. -/
structure MessagesEffectResult where
  fetchIssued : Bool
  subscriptionOpened : Bool
  newMessages : Option (List Message)
  deriving Repr, DecidableEq

/-- The messages effect of App.jsx: early return on a falsy selection,
otherwise fetch and subscribe. -/
def messagesEffect (store : List Message) (sel : Option String) :
    MessagesEffectResult :=
  match sel with
  | none =>
    { fetchIssued := false, subscriptionOpened := false, newMessages := none }
  | some p =>
    { fetchIssued := true, subscriptionOpened := true,
      newMessages := some (loadMessages store p) }

/-- The server-side realtime filter `phone=eq.${selectedPhone}` on the
messages INSERT subscription. -/
def subscriptionFilter (selectedPhone : String) (m : Message) : Bool :=
  m.phone == selectedPhone

/-- Effect of a messages INSERT feed event on the in-memory list: with no
selection there is no open subscription, so nothing is delivered; with a
selection, events passing the server-side filter are prepended
(`setMessages((prev) => [payload.new, ...prev])`). -/
def handleInsertEvent (sel : Option String) (msgs : List Message)
    (m : Message) : List Message :=
  match sel with
  | none => msgs
  | some p => if subscriptionFilter p m then m :: msgs else msgs

/-- The App component state relevant to the message thread. -/
structure AppState where
  selectedPhone : Option String
  messages : List Message
  deriving Repr, DecidableEq

/-- `useState(null)` and `useState([])`. -/
def initialState : AppState := { selectedPhone := none, messages := [] }

/-- The discrete events that mutate the thread state: clicking a
conversation (which re-runs the messages effect) and a delivered INSERT
feed event. -/
inductive AppEvent where
  | selectConversation (phone : String)
  | feedInsert (m : Message)

/-- One transition of the App state against a fixed remote store. -/
def step (store : List Message) (s : AppState) : AppEvent → AppState
  | AppEvent.selectConversation p =>
    { selectedPhone := some p,
      messages := ((messagesEffect store (some p)).newMessages).getD s.messages }
  | AppEvent.feedInsert m =>
    { selectedPhone := s.selectedPhone,
      messages := handleInsertEvent s.selectedPhone s.messages m }

/-- States reachable from the initial mount by any event sequence. -/
inductive Reachable (store : List Message) : AppState → Prop where
  | init : Reachable store initialState
  | next (s : AppState) (e : AppEvent) :
      Reachable store s → Reachable store (step store s e)

/-- The messages panel renders `messages.map(...)` inside a
`flexDirection: "column-reverse"` container, so the visual
oldest-to-newest order is the reverse of the in-memory list. -/
def renderedMessages (s : AppState) : List Message := s.messages.reverse

/-- Bodies of the rendered messages, visual oldest-to-newest. -/
def renderedBodies (s : AppState) : List String :=
  (renderedMessages s).map Message.body

/-! ## Asynchronous message thread sync

`loadMessages` in App.jsx is an `async` function: the effect issues the
fetch and returns; `setMessages(data || [])` runs only when the promise
resolves. There is no cancellation and no staleness guard, so a fetch
issued under an earlier selection can resolve after the selection has
changed (and after a fetch issued later), overwriting `messages` with
the earlier phone's rows. The model below keeps the list of in-flight
fetches (each recording the phone it queried) and lets them resolve in
any order. The effect guard `if (!selectedPhone) return` is the full
JavaScript falsiness test, so an empty-string selection also skips the
fetch and the subscription. -/

/-- Outcome of the `fetch` call: a completed response with some HTTP
status, or a rejection (network error). -/
inductive FetchOutcome where
  | response (status : Nat)
  | networkError
  deriving Repr, DecidableEq

/-- Observable result of one invocation of `send()`. -/
structure SendResult where
  requestSent : Bool
  requestBody : Option (String × String)
  newText : String
  errorLogged : Bool
  deriving Repr, DecidableEq

/-- The composer `send` function: guard on falsy selection or
whitespace-only text; otherwise POST `{phone, text}` (text untrimmed);
clear the input when the fetch resolves, log when it rejects. -/
def sendAction (selectedPhone : Option String) (text : String)
    (outcome : FetchOutcome) : SendResult :=
  if jsFalsy selectedPhone then
    { requestSent := false, requestBody := none,
      newText := text, errorLogged := false }
  else if jsTrim text == "" then
    { requestSent := false, requestBody := none,
      newText := text, errorLogged := false }
  else
    match outcome with
    | FetchOutcome.response _ =>
      { requestSent := true,
        requestBody := some (selectedPhone.getD "", text),
        newText := "", errorLogged := false }
    | FetchOutcome.networkError =>
      { requestSent := true,
        requestBody := some (selectedPhone.getD "", text),
        newText := text, errorLogged := true }

/-! ## Server glue handler (src/api/index.js)

```js
const py = spawn("python3", [...]);
py.stdin.write(JSON.stringify({ req, env: process.env }));
py.stdin.end();
let out = "";
py.stdout.on("data", d => out += d);
py.on("close", code => { res.status(code === 0 ? 200 : 500).send(out); });
```
-/

/-- Observable behavior of the spawned child process: the stdout chunks
it emits, in order, and its exit code. -/
structure ChildBehavior where
  stdoutChunks : List String
  exitCode : Int
  deriving Repr, DecidableEq

/-- `JSON.stringify({ req, env })`: a JSON object with keys `req` and
`env` in that order, whose values are the JSON encodings of the request
and the process environment. -/
def envelopeJson (reqJson envJson : String) : String :=
  "\x7b\"req\":" ++ reqJson ++ ",\"env\":" ++ envJson ++ "\x7d"

/-- Observable result of the handler for one HTTP request. -/
structure HandlerResult where
  processesSpawned : Nat
  stdinData : String
  stdinClosed : Bool
  status : Nat
  responseBody : String
  deriving Repr, DecidableEq

/-- The exported request handler: spawn one child, write the envelope to
its stdin, end stdin, accumulate stdout chunks by string concatenation,
and on close answer with the accumulated output and status 200/500 by
exit code. -/
def glueHandler (reqJson envJson : String) (child : ChildBehavior) :
    HandlerResult :=
  { processesSpawned := 1,
    stdinData := envelopeJson reqJson envJson,
    stdinClosed := true,
    status := if child.exitCode == 0 then 200 else 500,
    responseBody := child.stdoutChunks.foldl (fun acc d => acc ++ d) "" }

/-! ## Theorems -/

/-- Helper: every message held in a reachable state belongs to the
currently selected conversation. -/
theorem reachable_messages_phone (store : List Message) (s : AppState)
    (h : Reachable store s) : ∀ m ∈ s.messages, s.selectedPhone = some m.phone := by
  induction h with
  | init =>
    intro m hm
    simp [initialState] at hm
  | next s e hs ih =>
    cases e with
    | selectConversation p =>
      intro m hm
      simp only [step, messagesEffect, Option.getD_some] at hm
      have hm2 : m ∈ List.insertionSort (fun a b => b.created_at ≤ a.created_at)
          (store.filter fun x => x.phone == p) := by
        simpa [loadMessages] using List.take_subset 100 _ hm
      have hm3 : m ∈ store.filter fun x => x.phone == p := by
        simpa [List.mem_insertionSort] using hm2
      have hphone : m.phone = p := by
        have := (List.mem_filter.mp hm3).2
        simpa using this
      simp [step, hphone]
    | feedInsert msg =>
      intro m hm
      simp only [step] at hm ⊢
      cases hsel : s.selectedPhone with
      | none =>
        rw [hsel] at hm
        simp only [handleInsertEvent] at hm
        have := ih m hm
        rw [hsel] at this
        exact this
      | some p =>
        rw [hsel] at hm
        simp only [handleInsertEvent, subscriptionFilter] at hm
        by_cases hmsg : msg.phone == p
        · simp [hmsg] at hm
          rcases hm with hm | hm
          · subst hm
            exact congrArg some (beq_iff_eq.mp hmsg).symm
          · simpa [hsel] using ih m hm
        · simp [hmsg] at hm
          simpa [hsel] using ih m hm

/-- C3: in every reachable state with no selected conversation the
message list is empty, and the messages effect at an empty selection
issues no fetch and opens no subscription. -/
theorem no_selection_empty_no_fetch (store : List Message) (s : AppState)
    (h : Reachable store s) (hn : s.selectedPhone = none) :
    s.messages = [] ∧
    (messagesEffect store s.selectedPhone).fetchIssued = false ∧
    (messagesEffect store s.selectedPhone).subscriptionOpened = false := by
  refine ⟨?_, by simp [hn, messagesEffect], by simp [hn, messagesEffect]⟩
  cases hmsg : s.messages with
  | nil => rfl
  | cons m ms =>
    have := reachable_messages_phone store s h m (by simp [hmsg])
    rw [hn] at this
    cases this

/-- C3 witness: the initial state has no selection, an empty list, and
an effect run that fetches and subscribes nothing. -/
theorem no_selection_empty_no_fetch_witness :
    initialState.messages = [] ∧
    (messagesEffect [] initialState.selectedPhone).fetchIssued = false ∧
    (messagesEffect [] initialState.selectedPhone).subscriptionOpened = false :=
  no_selection_empty_no_fetch [] initialState Reachable.init rfl

/-- C4: the conversation UPDATE callback preserves list length, and at
every position the entry whose phone matches the payload is replaced by
the payload row while every other entry is unchanged (order preserved,
no re-sort). -/
theorem handleCustomerUpdate_pointwise (payloadNew : Customer)
    (prev : List Customer) :
    (handleCustomerUpdate payloadNew prev).length = prev.length ∧
    ∀ i : Nat, (handleCustomerUpdate payloadNew prev)[i]? =
      (prev[i]?).map fun c =>
        if c.phone = payloadNew.phone then payloadNew else c := by
  constructor
  · simp [handleCustomerUpdate]
  · intro i
    simp [handleCustomerUpdate]

/-- C9: an UPDATE event matching no entry leaves the list entirely
unchanged, and every UPDATE event preserves the list of phone keys and
the length (never inserting or deleting an entry). -/
theorem handleCustomerUpdate_frame (payloadNew : Customer)
    (prev : List Customer) :
    ((∀ c ∈ prev, c.phone ≠ payloadNew.phone) →
      handleCustomerUpdate payloadNew prev = prev) ∧
    (handleCustomerUpdate payloadNew prev).map Customer.phone
      = prev.map Customer.phone ∧
    (handleCustomerUpdate payloadNew prev).length = prev.length := by
  refine ⟨?_, ?_, by simp [handleCustomerUpdate]⟩
  · intro hnone
    induction prev with
    | nil => rfl
    | cons c cs ih =>
      simp only [handleCustomerUpdate, List.map_cons] at ih ⊢
      rw [if_neg (hnone c (List.mem_cons_self c cs))]
      rw [ih fun x hx => hnone x (List.mem_cons_of_mem c hx)]
  · induction prev with
    | nil => rfl
    | cons c cs ih =>
      simp only [handleCustomerUpdate, List.map_cons] at ih ⊢
      rw [ih]
      by_cases hc : c.phone = payloadNew.phone
      · simp [hc]
      · simp [hc]

/-- C9 witness: a payload matching no entry leaves a concrete singleton
list unchanged. -/
theorem handleCustomerUpdate_frame_witness :
    handleCustomerUpdate ⟨"+15550000", none, 5⟩ [⟨"+15551234", none, 3⟩]
      = [⟨"+15551234", none, 3⟩] :=
  (handleCustomerUpdate_frame ⟨"+15550000", none, 5⟩
    [⟨"+15551234", none, 3⟩]).1 (by decide)

/-- C2 counterexample: with a selected conversation and text "hi", a
completed POST with non-2xx status 500 clears the input (newText is not
the original text) and logs no error, contradicting the claim that on
non-2xx the error is logged and the input is not cleared. -/
theorem sendAction_non2xx_counterexample :
    ¬ ((sendAction (some "+15551234") "hi"
          (FetchOutcome.response 500)).newText = "hi" ∧
       (sendAction (some "+15551234") "hi"
          (FetchOutcome.response 500)).errorLogged = true) := by
  decide

/-- C2 (amended): for a send with a selected conversation and non-empty
trimmed text, any completed response — regardless of HTTP status —
clears the input and logs nothing; only a network error (rejected fetch)
logs the error and leaves the input unchanged. -/
theorem sendAction_outcome_behavior (p text : String) (st : Nat)
    (hp : (p == "") = false) (ht : (jsTrim text == "") = false) :
    ((sendAction (some p) text (FetchOutcome.response st)).newText = "" ∧
     (sendAction (some p) text (FetchOutcome.response st)).errorLogged = false) ∧
    ((sendAction (some p) text FetchOutcome.networkError).newText = text ∧
     (sendAction (some p) text FetchOutcome.networkError).errorLogged = true) := by
  simp [sendAction, jsFalsy, hp, ht]

/-- C2 witness: concrete send of "hi" to a selected phone, over status
500 and over a network error. -/
theorem sendAction_outcome_behavior_witness :
    ((sendAction (some "+15551234") "hi"
        (FetchOutcome.response 500)).newText = "" ∧
     (sendAction (some "+15551234") "hi"
        (FetchOutcome.response 500)).errorLogged = false) ∧
    ((sendAction (some "+15551234") "hi"
        FetchOutcome.networkError).newText = "hi" ∧
     (sendAction (some "+15551234") "hi"
        FetchOutcome.networkError).errorLogged = true) :=
  sendAction_outcome_behavior "+15551234" "hi" 500 (by decide) (by decide)

/-- C7: a send attempt whose text trims to empty performs no network
call and leaves the composer text unchanged. -/
theorem sendAction_whitespace_guard (sel : Option String) (text : String)
    (o : FetchOutcome) (ht : jsTrim text = "") :
    (sendAction sel text o).requestSent = false ∧
    (sendAction sel text o).newText = text ∧
    (sendAction sel text o).requestBody = none := by
  cases hf : jsFalsy sel <;> simp [sendAction, hf, ht]

/-- C7 witness: whitespace-only text with a selected phone sends
nothing. -/
theorem sendAction_whitespace_guard_witness :
    (sendAction (some "+15551234") "   " FetchOutcome.networkError).requestSent
      = false ∧
    (sendAction (some "+15551234") "   " FetchOutcome.networkError).newText
      = "   " ∧
    (sendAction (some "+15551234") "   " FetchOutcome.networkError).requestBody
      = none :=
  sendAction_whitespace_guard (some "+15551234") "   "
    FetchOutcome.networkError (by decide)

/-- C10: a send that passes the guard POSTs the original untrimmed text
as the body's text field. -/
theorem sendAction_body_untrimmed (p text : String) (o : FetchOutcome)
    (hp : (p == "") = false) (ht : (jsTrim text == "") = false) :
    (sendAction (some p) text o).requestSent = true ∧
    (sendAction (some p) text o).requestBody = some (p, text) := by
  cases o <;> simp [sendAction, jsFalsy, hp, ht]

/-- C10 witness: the body of a send of " hi " keeps its leading and
trailing whitespace. -/
theorem sendAction_body_untrimmed_witness :
    (sendAction (some "+15551234") " hi "
        (FetchOutcome.response 200)).requestSent = true ∧
    (sendAction (some "+15551234") " hi "
        (FetchOutcome.response 200)).requestBody = some ("+15551234", " hi ") :=
  sendAction_body_untrimmed "+15551234" " hi " (FetchOutcome.response 200)
    (by decide) (by decide)

/-- C8: if either endpoint credential is absent, module initialization
throws (an error results) and no client is created. -/
theorem supabaseClientModule_fail_fast (urlVar keyVar : Option String)
    (h : urlVar = none ∨ keyVar = none) :
    (∃ msg, supabaseClientModule urlVar keyVar = Except.error msg) ∧
    ∀ client, supabaseClientModule urlVar keyVar ≠ Except.ok client := by
  have hfalsy : jsFalsy urlVar = true ∨ jsFalsy keyVar = true := by
    rcases h with h | h <;> subst h
    · exact Or.inl rfl
    · exact Or.inr rfl
  constructor
  · unfold supabaseClientModule
    split
    · exact ⟨_, rfl⟩
    · split
      · exact ⟨_, rfl⟩
      · rename_i h1 h2
        rcases hfalsy with hf | hf
        · exact absurd hf (by simpa using h1)
        · exact absurd hf (by simpa using h2)
  · intro client
    unfold supabaseClientModule
    split
    · simp
    · split
      · simp
      · rename_i h1 h2
        rcases hfalsy with hf | hf
        · exact absurd hf (by simpa using h1)
        · exact absurd hf (by simpa using h2)

/-- C8 witness: a missing key with a present URL yields an error and no
client. -/
theorem supabaseClientModule_fail_fast_witness :
    (∃ msg, supabaseClientModule (some "https://x.supabase.co") none
        = Except.error msg) ∧
    ∀ client, supabaseClientModule (some "https://x.supabase.co") none
        ≠ Except.ok client :=
  supabaseClientModule_fail_fast (some "https://x.supabase.co") none
    (Or.inr rfl)

/-- C5: the glue handler spawns exactly one process, writes the JSON
envelope of request and environment to the closed stdin, answers with
the concatenation of the stdout chunks, and maps exit code zero to 200
and any other exit code to 500. -/
theorem glueHandler_contract (reqJson envJson : String)
    (child : ChildBehavior) :
    (glueHandler reqJson envJson child).processesSpawned = 1 ∧
    (glueHandler reqJson envJson child).stdinData
      = envelopeJson reqJson envJson ∧
    (glueHandler reqJson envJson child).stdinClosed = true ∧
    (glueHandler reqJson envJson child).responseBody
      = String.join child.stdoutChunks ∧
    (child.exitCode = 0 → (glueHandler reqJson envJson child).status = 200) ∧
    (child.exitCode ≠ 0 → (glueHandler reqJson envJson child).status = 500) := by
  refine ⟨rfl, rfl, rfl, rfl, ?_, ?_⟩
  · intro h
    simp [glueHandler, h]
  · intro h
    simp [glueHandler, h]

/-- C5 witness: a child emitting chunks "a","b" with exit code 0 yields
status 200 and body "ab"; exit code 1 yields status 500. -/
theorem glueHandler_contract_witness :
    (glueHandler "\"r\"" "\"e\"" ⟨["a", "b"], 0⟩).status = 200 ∧
    (glueHandler "\"r\"" "\"e\"" ⟨["a", "b"], 0⟩).responseBody = "ab" ∧
    (glueHandler "\"r\"" "\"e\"" ⟨["a", "b"], 1⟩).status = 500 := by
  refine ⟨(glueHandler_contract "\"r\"" "\"e\"" ⟨["a", "b"], 0⟩).2.2.2.2.1 rfl,
    ?_, (glueHandler_contract "\"r\"" "\"e\"" ⟨["a", "b"], 1⟩).2.2.2.2.2
      (by decide)⟩
  have h := (glueHandler_contract "\"r\"" "\"e\"" ⟨["a", "b"], 0⟩).2.2.2.1
  rw [h]
  rfl

/-- The concrete message store of the C6 example: two stored messages of
phone +15551234 with increasing creation timestamps. -/
def exampleStore : List Message :=
  [⟨1, "+15551234", "hi", "incoming", 1⟩,
   ⟨2, "+15551234", "there", "incoming", 2⟩]

/-- C6: selecting +15551234 over the example store renders "hi" then
"there" oldest-to-newest; a same-phone insert of "ok" renders third and
newest; a different-phone insert leaves the rendering unchanged. -/
theorem render_order_example :
    renderedBodies (step exampleStore initialState
        (AppEvent.selectConversation "+15551234")) = ["hi", "there"] ∧
    renderedBodies (step exampleStore
        (step exampleStore initialState
          (AppEvent.selectConversation "+15551234"))
        (AppEvent.feedInsert ⟨3, "+15551234", "ok", "incoming", 3⟩))
      = ["hi", "there", "ok"] ∧
    renderedBodies (step exampleStore
        (step exampleStore initialState
          (AppEvent.selectConversation "+15551234"))
        (AppEvent.feedInsert ⟨4, "+15559999", "nope", "incoming", 4⟩))
      = ["hi", "there"] := by
  decide

end WhatsappWebhook
